import Mathlib

/-!
Shallow embedding of the backend-supervision core of the
`track-the-thing` desktop shell
(`src/desktop/tauri/src-tauri/src/lib.rs`), together with theorems
settling the specification claims about it.

Conventions used throughout:
* Rust `u32` window dimensions are modelled as `Nat`.
* Rust `f64` geometry arithmetic is modelled over `ℚ`; every value the
  code feeds into it here is either an integer cast or a short decimal
  literal, so no binary rounding is observable in the claimed
  properties.
* Fallible external effects (file system, process spawn, HTTP, window
  queries) are modelled as explicit `Option`/`Except` inputs.
* A Rust panic is modelled as `Option.none` of the modelled
  computation.
-/

namespace TrackTheThing

/-! ## Window preferences (`WindowPreferences`, lib.rs lines 36-41) -/

/-- Mirror of `WindowPreferences` from lib.rs: `width: u32, height: u32, maximized: bool`. -/
structure WindowPreferences where
  width : Nat
  height : Nat
  maximized : Bool
  deriving DecidableEq, Repr

/-! ## Window-event handlers (lib.rs `run`, `on_window_event`, lines 203-236)

Each handler is modelled as a function from the event's data to the
`WindowPreferences` value it persists (`some prefs` means
`prefs.save(...)` is reached with that value; `none` means no write
occurs). The `is_maximized()` window query is fallible in the source
(`if let Ok(is_maximized) = window.is_maximized()`), so it enters as an
`Except Unit Bool`; likewise `outer_size()` in the close handler. -/

/-- The `WindowEvent::Resized(size)` arm (lib.rs lines 220-232): saves
`{width, height, maximized}` only when `size.width >= 480 && size.height >= 600`
and the `is_maximized()` query succeeds. -/
def resizedHandler (w h : Nat) (isMax : Except Unit Bool) : Option WindowPreferences :=
  if 480 ≤ w ∧ 600 ≤ h then
    match isMax with
    | .ok m => some ⟨w, h, m⟩
    | .error _ => none
  else
    none

/-- The `WindowEvent::CloseRequested` arm (lib.rs lines 206-218): when both the
`outer_size()` and `is_maximized()` queries succeed, saves the current size
unconditionally (no minimum-size check), then terminates the backend. -/
def closeRequestedHandler (size : Except Unit (Nat × Nat)) (isMax : Except Unit Bool) :
    Option WindowPreferences :=
  match size, isMax with
  | .ok (w, h), .ok m => some ⟨w, h, m⟩
  | _, _ => none

/-! ## Backend process handle (`BackendProcess`, lib.rs lines 17-34)

The `Mutex<Option<Child>>` is modelled as an `Option Nat` (the pid of
the owned child); to observe kill behaviour the state also records, in
order, every pid on which `child.kill()` was issued. Dropping a Rust
`std::process::Child` does not kill the process, so an overwrite that
drops the old handle leaves `killed` unchanged. -/

structure ProcState where
  child : Option Nat
  killed : List Nat
  deriving DecidableEq, Repr

/-- Model of `BackendProcess::replace` (lib.rs lines 23-25):
`*self.child.lock().unwrap() = Some(child)` — overwrites the slot; the old
`Child` value, if any, is dropped without a kill. -/
def BackendProcess.replace (s : ProcState) (pid : Nat) : ProcState :=
  { child := some pid, killed := s.killed }

/-- Model of `BackendProcess::terminate` (lib.rs lines 27-33):
`if let Some(mut child) = ...take() { child.kill() }` — takes the handle out
(leaving `None`) and kills it; on an empty slot it does nothing. -/
def BackendProcess.terminate (s : ProcState) : ProcState :=
  match s.child with
  | some c => { child := none, killed := s.killed ++ [c] }
  | none => s

/-! ## Restore-time geometry (`initialize_windows`, lib.rs lines 329-360)

The saved-preferences branch computes
`(prefs.width as f64).clamp(480.0, screen_w)` and
`(prefs.height as f64).clamp(600.0, screen_h)`. Rust's `f64::clamp`
asserts `min <= max` and panics otherwise; the model returns `none` in
the panic case. -/

/-- Model of Rust `f64::clamp(lo, hi)` over `ℚ`: panics (`none`) when `lo > hi`,
otherwise clamps into `[lo, hi]`. -/
def rustClamp (x lo hi : ℚ) : Option ℚ :=
  if lo ≤ hi then some (max lo (min x hi)) else none

/-- The saved-preferences branch of `initialize_windows` (lib.rs lines 334-339):
the pre-show restored size for saved `prefs` on a `screenW × screenH` monitor.
`none` models the `clamp` panic. -/
def restoredGeometry (prefs : WindowPreferences) (screenW screenH : Nat) :
    Option (ℚ × ℚ) := do
  let w ← rustClamp (prefs.width : ℚ) 480 (screenW : ℚ)
  let h ← rustClamp (prefs.height : ℚ) 600 (screenH : ℚ)
  pure (w, h)

/-! ## Readiness coordinator (`wait_for_backend_ready`, lib.rs lines 410-464)

After the poll loop breaks at elapsed time `t` since poll start, the
task runs `if config.splash_min > elapsed { sleep(config.splash_min - elapsed) }`
and only then shows the main window. Durations are in milliseconds as
`Nat`. -/

/-- Extra suspension inserted after readiness (lib.rs lines 422-425):
the remainder of the minimum splash-visible duration, or nothing. -/
def minSplashWait (splashMin elapsed : Nat) : Nat :=
  if splashMin > elapsed then splashMin - elapsed else 0

/-- Time since poll start at which `window.show()` runs: readiness time plus
the inserted wait (lib.rs lines 422-457). -/
def showTime (splashMin elapsed : Nat) : Nat :=
  elapsed + minSplashWait splashMin elapsed

/-! ## Health probe (`backend_is_ready`, lib.rs lines 466-472)

`ureq::get(url).timeout(500ms).call()` yields `Ok(response)` (with an
HTTP status) or `Err` (network failure, connect/read timeout, or a
status-class error); the code maps `Ok` to `status == 200` and every
`Err` to `false` via `unwrap_or(false)`. -/

/-- Outcome of one `ureq` call: a response carrying an HTTP status, or any
transport-level failure (network error or timeout). -/
inductive CallOutcome where
  | ok (status : Nat)
  | error
  deriving DecidableEq, Repr

/-- Model of `backend_is_ready` (lib.rs lines 466-472): `Ok(response)` maps to
`status == 200`; every error collapses to `false`. Total into `Bool`, so no
error can propagate. -/
def backend_is_ready : CallOutcome → Bool
  | .ok s => s == 200
  | .error => false

/-! ## Backend spawn (`spawn_backend`, lib.rs lines 364-408)

External effects enter as explicit components: the resolved packaged
path (`packaged_backend_path`), file existence, the two `Command::spawn`
calls (child pid or an `io::Error` code), and `shell_words::split` from
the external crate. -/

/-- Configuration slice of `DesktopConfig` that `spawn_backend` reads. -/
structure SpawnConfig where
  launcherCommand : String
  repoRoot : String

/-- External world of `spawn_backend`: path resolution, the filesystem, the
two spawn effects (pid on success, `io::Error` code on failure), and
`shell_words::split` (`none` models a split error on a malformed string). -/
structure SpawnWorld where
  packagedPath : Option String
  pathExists : String → Bool
  spawnPackaged : String → Except Nat Nat
  spawnFallback : String → List String → String → Except Nat Nat
  shellSplit : String → Option (List String)

/-- Fallback branch of `spawn_backend` (lib.rs lines 395-408): shell-word-split
the launcher command, defaulting to `python3 backend/desktop_launcher.py` when
splitting fails or yields nothing, and spawn with the repository root as the
working directory. -/
def fallbackSpawn (w : SpawnWorld) (cfg : SpawnConfig) : Except Nat Nat :=
  let words := (w.shellSplit cfg.launcherCommand).getD
    ["python3", "backend/desktop_launcher.py"]
  let pair :=
    match words with
    | [] => ("python3", ["backend/desktop_launcher.py"])
    | head :: tail => (head, tail)
  w.spawnFallback pair.1 pair.2 cfg.repoRoot

/-- Model of `spawn_backend` (lib.rs lines 364-408): when the packaged path
resolves and the binary exists, the packaged spawn result is returned as is
(success or error); otherwise the fallback branch runs. -/
def spawn_backend (w : SpawnWorld) (cfg : SpawnConfig) : Except Nat Nat :=
  match w.packagedPath with
  | some p => if w.pathExists p then w.spawnPackaged p else fallbackSpawn w cfg
  | none => fallbackSpawn w cfg

/-! ## Config parsing (`DesktopConfig::from_env`, lib.rs lines 113-165)

Each field computation takes the raw environment-variable lookup
(`Option String`, `none` for unset) as input. Rust `str::parse::<f64>()`
is modelled over `ℚ` by `parseFloat?`, which covers the plain decimal
forms (optional sign, digits, optional fraction); on such inputs the
Rust parse is exact for the comparisons made here, and on
non-numeric garbage both fail. -/

/-- Decimal value of a digit list. -/
def digitsVal (cs : List Char) : Nat :=
  cs.foldl (fun acc c => 10 * acc + (c.toNat - 48)) 0

/-- Parse a nonempty all-digit character list as a `Nat`. -/
def parseNatDigits? (cs : List Char) : Option Nat :=
  if cs ≠ [] ∧ cs.all (fun c => c.isDigit) then some (digitsVal cs) else none

/-- Split a character list on the dot character, like `str::split` on a dot. -/
def splitDot : List Char → List (List Char)
  | [] => [[]]
  | c :: rest =>
    let r := splitDot rest
    if c = '.' then [] :: r
    else (c :: r.headI) :: r.tail

/-- Model of Rust `str::parse::<f64>()` restricted to plain decimal literals:
optional sign, then `digits`, `digits.digits`, `digits.` or `.digits`;
everything else is a parse failure (`none`). -/
def parseFloatChars (cs : List Char) : Option ℚ :=
  let neg : Bool := match cs with | '-' :: _ => true | _ => false
  let body : List Char :=
    match cs with
    | '-' :: rest => rest
    | '+' :: rest => rest
    | _ => cs
  let mag : Option ℚ :=
    match splitDot body with
    | [intPart] => (parseNatDigits? intPart).map (fun n => (n : ℚ))
    | [intPart, fracPart] =>
      if intPart = [] ∧ fracPart = [] then none
      else
        match (if intPart = [] then some 0 else parseNatDigits? intPart),
              (if fracPart = [] then some 0 else parseNatDigits? fracPart) with
        | some ip, some fp =>
          some ((ip : ℚ) + (fp : ℚ) / (10 : ℚ) ^ fracPart.length)
        | _, _ => none
    | _ => none
  if neg then mag.map (fun q => -q) else mag

/-- Model of Rust `str::parse::<f64>()` on the character content of a string. -/
def parseFloat? (s : String) : Option ℚ := parseFloatChars s.data

/-- Model of the `window_height_ratio` computation (lib.rs lines 129-133):
parse, clamp into `[0.5, 0.98]`, default `0.95` when unset or unparseable.
The clamp bounds are the constants `0.5 ≤ 0.98`, so the panic branch of
Rust `clamp` is unreachable and the total form is used. -/
def window_height_ratio (envVal : Option String) : ℚ :=
  ((envVal.bind parseFloat?).map (fun r => max 0.5 (min r 0.98))).getD 0.95

/-- Model of the `window_width` computation (lib.rs lines 135-138): parse,
then keep only values strictly above `320.0`; anything else is `none`. -/
def window_width (envVal : Option String) : Option ℚ :=
  (envVal.bind parseFloat?).filter (fun v => decide ((320 : ℚ) < v))

/-- Rust `char::to_ascii_lowercase` mapped over a string (`str::to_ascii_lowercase`). -/
def asciiLower (s : String) : String :=
  String.mk (s.data.map (fun c =>
    if 'A' ≤ c ∧ c ≤ 'Z' then Char.ofNat (c.toNat + 32) else c))

/-- Model of the `window_maximized` computation (lib.rs lines 140-142):
`matches!(value.to_ascii_lowercase().as_str(), "1" | "true" | "yes")` on a set
variable, `false` when unset. -/
def window_maximized (envVal : Option String) : Bool :=
  match envVal with
  | some v => (asciiLower v == "1") || (asciiLower v == "true") || (asciiLower v == "yes")
  | none => false

/-- Helper: on sane bounds, Rust `clamp` succeeds and is the max/min form. -/
theorem rustClamp_of_le {lo hi : ℚ} (x : ℚ) (h : lo ≤ hi) :
    rustClamp x lo hi = some (max lo (min x hi)) := by
  simp [rustClamp, h]

/-- Helper: evaluation of the float parser on the literal from the spec
scenario, `"1.5"`. -/
theorem parseFloat?_onePointFive : parseFloat? "1.5" = some (3 / 2 : ℚ) := by
  show parseFloatChars ['1', '.', '5'] = some (3 / 2 : ℚ)
  simp [parseFloatChars, splitDot, parseNatDigits?, digitsVal]
  norm_num

/-- C1, corrected part: the resize trigger only ever persists preferences with
`width ≥ 480` and `height ≥ 600`, and the close-request trigger persists
exactly the reported size with no minimum-size check. -/
theorem spec_C1 :
    (∀ (w h : Nat) (q : Except Unit Bool) (p : WindowPreferences),
      resizedHandler w h q = some p → 480 ≤ p.width ∧ 600 ≤ p.height) ∧
    (∀ (w h : Nat) (m : Bool),
      closeRequestedHandler (Except.ok (w, h)) (Except.ok m) = some ⟨w, h, m⟩) := by
  constructor
  · intro w h q p hp
    unfold resizedHandler at hp
    by_cases hc : 480 ≤ w ∧ 600 ≤ h
    · rw [if_pos hc] at hp
      cases q with
      | ok m =>
        rw [Option.some.injEq] at hp
        subst hp
        exact hc
      | error e => exact absurd hp (by simp)
    · rw [if_neg hc] at hp
      exact absurd hp (by simp)
  · intro w h m
    rfl

/-- C1, counterexample to the claim as stated: a close-request whose reported
outer size is `100 × 100` persists a `WindowPreferences` with `width = 100 < 480`,
so the close-request write path does save a size below the threshold. -/
theorem spec_C1_counterexample :
    closeRequestedHandler (Except.ok (100, 100)) (Except.ok false) =
      some ⟨100, 100, false⟩ ∧ (100 : Nat) < 480 := by
  exact ⟨rfl, by decide⟩

/-- C1 witness: the resize-path bound evaluated at the concrete event
`500 × 700`. -/
theorem spec_C1_witness :
    480 ≤ (WindowPreferences.mk 500 700 false).width ∧
    600 ≤ (WindowPreferences.mk 500 700 false).height :=
  spec_C1.1 500 700 (Except.ok false) (WindowPreferences.mk 500 700 false) (by decide)

/-- C2, corrected part: for every saved preference and every screen at least
`480 × 600`, the restored pre-show geometry exists and satisfies
`480 ≤ width ≤ screenW` and `600 ≤ height ≤ screenH`; and the spec scenario
`{width 2000, height 50}` on `1920 × 1080` restores to `1920 × 600`. -/
theorem spec_C2 :
    (∀ (prefs : WindowPreferences) (sw sh : Nat), 480 ≤ sw → 600 ≤ sh →
      ∃ w h : ℚ, restoredGeometry prefs sw sh = some (w, h) ∧
        480 ≤ w ∧ w ≤ (sw : ℚ) ∧ 600 ≤ h ∧ h ≤ (sh : ℚ)) ∧
    restoredGeometry ⟨2000, 50, false⟩ 1920 1080 = some (1920, 600) := by
  constructor
  · intro prefs sw sh hw hh
    have hw' : (480 : ℚ) ≤ (sw : ℚ) := by exact_mod_cast hw
    have hh' : (600 : ℚ) ≤ (sh : ℚ) := by exact_mod_cast hh
    refine ⟨max 480 (min (prefs.width : ℚ) (sw : ℚ)),
      max 600 (min (prefs.height : ℚ) (sh : ℚ)), ?_, ?_, ?_, ?_, ?_⟩
    · simp [restoredGeometry, rustClamp, hw', hh']
    · exact le_max_left _ _
    · exact max_le hw' (min_le_right _ _)
    · exact le_max_left _ _
    · exact max_le hh' (min_le_right _ _)
  · decide

/-- C2, counterexample to the claim as stated: on a `320 × 240` screen the
restore computation panics (Rust `clamp` with `min 480 > max 320`), modelled
as `none`, refuting "never fails or panics for any screen size". -/
theorem spec_C2_counterexample :
    restoredGeometry ⟨2000, 50, false⟩ 320 240 = none := by
  decide

/-- C2 witness: the bound statement instantiated at the spec scenario. -/
theorem spec_C2_witness :
    ∃ w h : ℚ, restoredGeometry ⟨2000, 50, false⟩ 1920 1080 = some (w, h) ∧
      480 ≤ w ∧ w ≤ ((1920 : Nat) : ℚ) ∧ 600 ≤ h ∧ h ≤ ((1080 : Nat) : ℚ) :=
  spec_C2.1 ⟨2000, 50, false⟩ 1920 1080 (by decide) (by decide)

/-- C3, corrected part: the handle owns at most one child; `replace` installs
the new handle by plain overwrite, dropping — not killing — any previously
owned child; `terminate` takes the handle out and kills exactly it, and is the
only kill path. -/
theorem spec_C3 :
    (∀ (s : ProcState) (pid : Nat),
      (BackendProcess.replace s pid).child = some pid ∧
      (BackendProcess.replace s pid).killed = s.killed) ∧
    (∀ (s : ProcState) (c : Nat), s.child = some c →
      BackendProcess.terminate s = ⟨none, s.killed ++ [c]⟩) ∧
    (∀ s : ProcState, s.child = none → BackendProcess.terminate s = s) := by
  refine ⟨fun s pid => ⟨rfl, rfl⟩, fun s c hc => ?_, fun s hn => ?_⟩
  · simp [BackendProcess.terminate, hc]
  · simp [BackendProcess.terminate, hn]

/-- C3, counterexample to the claim as stated: with child `1` still owned,
`replace 2` installs the new handle while the kill log stays empty — the
previous process is not killed before replacement. -/
theorem spec_C3_counterexample :
    (BackendProcess.replace (⟨none, []⟩ : ProcState) 1).child = some 1 ∧
    (BackendProcess.replace (BackendProcess.replace (⟨none, []⟩ : ProcState) 1) 2).killed
      = [] :=
  ⟨rfl, rfl⟩

/-- C3 witness: the terminate clause evaluated on a state owning child `7`. -/
theorem spec_C3_witness :
    BackendProcess.terminate ⟨some 7, []⟩ = (⟨none, [7]⟩ : ProcState) :=
  spec_C3.2.1 ⟨some 7, []⟩ 7 rfl

/-- C4: if readiness arrives at elapsed `t < splashMin` the task sleeps exactly
`splashMin - t` more, so the show happens at `splashMin` (never earlier); if
`t ≥ splashMin` no wait is inserted and the show happens at `t`. -/
theorem spec_C4 : ∀ (m t : Nat),
    (t < m → minSplashWait m t = m - t ∧ showTime m t = m) ∧
    (m ≤ t → minSplashWait m t = 0 ∧ showTime m t = t) := by
  intro m t
  refine ⟨fun h => ?_, fun h => ?_⟩ <;> simp only [minSplashWait, showTime] <;>
    split <;> omega

/-- C4 witness: the spec scenario — readiness at `t = 300 ms` with
`splashMin = 1200 ms` sleeps `900 ms` more and shows at `1200 ms`. -/
theorem spec_C4_witness :
    minSplashWait 1200 300 = 1200 - 300 ∧ showTime 1200 300 = 1200 :=
  (spec_C4 1200 300).1 (by decide)

/-- C5: the probe reports ready exactly when the call yields HTTP status 200;
every non-200 status and every transport failure map identically to `false`,
and the probe is total into `Bool` (no error propagates). -/
theorem spec_C5 :
    (∀ o : CallOutcome, backend_is_ready o = true ↔ o = CallOutcome.ok 200) ∧
    (∀ s : Nat, s ≠ 200 → backend_is_ready (CallOutcome.ok s) = false) ∧
    backend_is_ready CallOutcome.error = false := by
  refine ⟨fun o => ?_, fun s hs => ?_, rfl⟩
  · cases o with
    | ok s => simp [backend_is_ready]
    | error => simp [backend_is_ready]
  · simp [backend_is_ready, hs]

/-- C5 witness: a 404 response reports not-ready. -/
theorem spec_C5_witness : backend_is_ready (CallOutcome.ok 404) = false :=
  spec_C5.2.1 404 (by decide)

/-- C6: when the packaged binary path resolves and the file exists, the
packaged spawn result (success or failure) is the overall result, independent
of the fallback; when the path fails to resolve or the file is absent, the
fallback runs with the repository root as working directory, uses the
hardcoded default command if shell-splitting fails, and its failure is the
overall failure. -/
theorem spec_C6 :
    (∀ (w : SpawnWorld) (cfg : SpawnConfig) (p : String) (e : Nat),
      w.packagedPath = some p → w.pathExists p = true → w.spawnPackaged p = .error e →
      spawn_backend w cfg = .error e) ∧
    (∀ (w : SpawnWorld) (cfg : SpawnConfig) (p : String)
      (f : String → List String → String → Except Nat Nat),
      w.packagedPath = some p → w.pathExists p = true →
      spawn_backend { w with spawnFallback := f } cfg = spawn_backend w cfg) ∧
    (∀ (w : SpawnWorld) (cfg : SpawnConfig),
      w.packagedPath = none → spawn_backend w cfg = fallbackSpawn w cfg) ∧
    (∀ (w : SpawnWorld) (cfg : SpawnConfig) (p : String),
      w.packagedPath = some p → w.pathExists p = false →
      spawn_backend w cfg = fallbackSpawn w cfg) ∧
    (∀ (w : SpawnWorld) (cfg : SpawnConfig),
      w.shellSplit cfg.launcherCommand = none →
      fallbackSpawn w cfg =
        w.spawnFallback "python3" ["backend/desktop_launcher.py"] cfg.repoRoot) ∧
    (∀ (w : SpawnWorld) (cfg : SpawnConfig) (e : Nat),
      w.packagedPath = none → fallbackSpawn w cfg = .error e →
      spawn_backend w cfg = .error e) := by
  refine ⟨?_, ?_, ?_, ?_, ?_, ?_⟩
  · intro w cfg p e hp hex hsp
    simp [spawn_backend, hp, hex, hsp]
  · intro w cfg p f hp hex
    simp [spawn_backend, hp, hex]
  · intro w cfg hp
    simp [spawn_backend, hp]
  · intro w cfg p hp hex
    simp [spawn_backend, hp, hex]
  · intro w cfg hsplit
    simp [fallbackSpawn, hsplit]
  · intro w cfg e hp hfb
    simp [spawn_backend, hp, hfb]

/-- C6 witness: a world where the packaged binary exists but fails to spawn
with error code 5 — the overall result is that error even though the fallback
would succeed. -/
theorem spec_C6_witness :
    spawn_backend
      ⟨some "pkg", fun _ => true, fun _ => .error 5, fun _ _ _ => .ok 1, fun _ => none⟩
      ⟨"cmd", "/repo"⟩ = .error 5 :=
  spec_C6.1 _ _ "pkg" 5 rfl rfl rfl

/-- C7: a resize event below `480 × 600` performs no write; a resize event
meeting the threshold (with the maximized query succeeding with flag `b`)
writes exactly that width, height and flag. -/
theorem spec_C7 : ∀ (w h : Nat) (q : Except Unit Bool),
    ((w < 480 ∨ h < 600) → resizedHandler w h q = none) ∧
    (∀ b : Bool, 480 ≤ w → 600 ≤ h → q = Except.ok b →
      resizedHandler w h q = some ⟨w, h, b⟩) := by
  intro w h q
  constructor
  · intro hlt
    unfold resizedHandler
    rw [if_neg (by omega)]
  · intro b hw hh hq
    subst hq
    unfold resizedHandler
    rw [if_pos ⟨hw, hh⟩]

/-- C7 witness: the qualifying resize `500 × 700` with maximized flag `true`
writes exactly those values. -/
theorem spec_C7_witness :
    resizedHandler 500 700 (Except.ok true) = some ⟨500, 700, true⟩ :=
  (spec_C7 500 700 (Except.ok true)).2 true (by decide) (by decide) rfl

/-- C8: `TAURI_WINDOW_HEIGHT_RATIO=1.5` clamps to `0.98`; an unparseable value
and an unset variable both give the default `0.95`; a parsed
`TAURI_WINDOW_WIDTH` at or below `320` is treated as unset while one above
`320` is kept. -/
theorem spec_C8 :
    window_height_ratio (some "1.5") = 0.98 ∧
    window_height_ratio (some "abc") = 0.95 ∧
    window_height_ratio none = 0.95 ∧
    (∀ (s : String) (q : ℚ), parseFloat? s = some q → q ≤ 320 →
      window_width (some s) = none) ∧
    (∀ (s : String) (q : ℚ), parseFloat? s = some q → 320 < q →
      window_width (some s) = some q) ∧
    window_width none = none := by
  refine ⟨?_, ?_, ?_, ?_, ?_, rfl⟩
  · simp [window_height_ratio, parseFloat?_onePointFive]
    norm_num [min_def, max_def]
  · have h : parseFloat? "abc" = none := by decide
    simp [window_height_ratio, h]
  · simp [window_height_ratio]
  · intro s q hp hle
    have hn : ¬ (320 : ℚ) < q := not_lt.mpr hle
    simp [window_width, hp, Option.filter, hn]
  · intro s q hp hlt
    simp [window_width, hp, Option.filter, hlt]

/-- C8 witness: the width override `321` parses above the floor and is kept. -/
theorem spec_C8_witness : window_width (some "321") = some 321 :=
  spec_C8.2.2.2.2.1 "321" 321 (by decide) (by decide)

/-- C9: terminating with no owned child changes nothing and issues no kill;
after any terminate the handle is empty, and a second terminate is exactly the
first (no double kill). -/
theorem spec_C9 :
    (∀ k : List Nat, BackendProcess.terminate ⟨none, k⟩ = ⟨none, k⟩) ∧
    (∀ s : ProcState, (BackendProcess.terminate s).child = none) ∧
    (∀ s : ProcState,
      BackendProcess.terminate (BackendProcess.terminate s) = BackendProcess.terminate s) := by
  refine ⟨fun k => rfl, fun s => ?_, fun s => ?_⟩
  · cases hc : s.child <;> simp [BackendProcess.terminate, hc]
  · cases hc : s.child <;> simp [BackendProcess.terminate, hc]

/-- C10: the maximized flag is `true` exactly when the variable is set and its
ASCII-lowercased value is `"1"`, `"true"` or `"yes"`; `"on"`, `"enabled"`,
values with surrounding whitespace, and the unset case give `false`, while
case variants such as `"TRUE"` give `true`. -/
theorem spec_C10 :
    (∀ v : Option String, window_maximized v = true ↔
      ∃ s, v = some s ∧
        (asciiLower s = "1" ∨ asciiLower s = "true" ∨ asciiLower s = "yes")) ∧
    window_maximized (some "on") = false ∧
    window_maximized (some "enabled") = false ∧
    window_maximized (some " true") = false ∧
    window_maximized (some "TRUE") = true ∧
    window_maximized none = false := by
  refine ⟨fun v => ?_, by decide, by decide, by decide, by decide, rfl⟩
  cases v with
  | none => simp [window_maximized]
  | some s =>
    simp only [window_maximized, Bool.or_eq_true, beq_iff_eq, Option.some.injEq]
    constructor
    · intro hd
      exact ⟨s, rfl, or_assoc.mp hd⟩
    · rintro ⟨t, rfl, hd⟩
      exact or_assoc.mpr hd

end TrackTheThing
